import Mathlib

/-!
Shallow embedding of the error-chain library kisunji/e.

A chain is a Go error value: either the nil interface value, a library node
(struct Error in src/errors.go, struct errorImpl in src/unnamed/part_006),
a foreign wrapper produced by fmt.Errorf with a trailing %w verb, or a leaf
produced by errors.New.  The library node carries the four string facets
op, code, message, stacktrace and a nested cause; the errors.go revision has
no stacktrace field, which corresponds to that field being unused by the
functions modelled from that revision.
-/

/-- A Go error value as it occurs in chains built by this library:
nilE is the nil error interface value; node is the library struct
(Error in src/errors.go, errorImpl in src/unnamed/part_006) with fields
op, code, message, stacktrace and the nested cause err; fmtWrap is a
foreign fmt.Errorf wrapper whose text is pre followed by the rendering of
its wrapped error; leaf is errors.New applied to a plain string. -/
inductive GoError where
  | nilE : GoError
  | node (op code message stacktrace : String) (err : GoError) : GoError
  | fmtWrap (pre : String) (err : GoError) : GoError
  | leaf (text : String) : GoError
deriving DecidableEq

/-- errors.Unwrap: calls the Unwrap method when the dynamic type has one.
Error.Unwrap (src/errors.go lines 46-51) returns nil on a nil receiver and
the nested err otherwise; the fmt.Errorf wrapper unwraps to its wrapped
error; errors.New values have no Unwrap method, so errors.Unwrap yields
nil on them, and errors.Unwrap of nil is nil. -/
def unwrap : GoError → GoError
  | .nilE => .nilE
  | .node _ _ _ _ e => e
  | .fmtWrap _ e => e
  | .leaf _ => .nilE

/-- The Error method rendering a chain to a string (src/errors.go lines
29-44 and errorImpl.Error in src/unnamed/part_006): the op contributes
"op: " when non-empty, the code contributes "[code] " when non-empty, then
the nested error is rendered.  The result none models a runtime panic: a
node whose nested err is the nil interface dereferences nil.  A nil
receiver returns the empty string (the guard at src/errors.go lines 30-32).
A fmtWrap over nil renders the %w verb applied to a non-error operand. -/
def errorStr : GoError → Option String
  | .nilE => some ""
  | .node op code _ _ e =>
      match e with
      | .nilE => none
      | e => (errorStr e).map (fun s =>
          (if op = "" then "" else op ++ ": ") ++
          (if code = "" then "" else "[" ++ code ++ "] ") ++ s)
  | .fmtWrap pre e =>
      match e with
      | .nilE => some (pre ++ "%!w(<nil>)")
      | e => (errorStr e).map (fun s => pre ++ s)
  | .leaf t => some t

/-- The for-loop inside Error.Code (src/errors.go lines 59-63): walk the
wrapped chain by errors.Unwrap and return the code of the first value whose
dynamic type is the library node and whose code field is non-empty. -/
def codeFold : GoError → String
  | .nilE => ""
  | .node _ c _ _ e => if c = "" then codeFold e else c
  | .fmtWrap _ e => codeFold e
  | .leaf _ => ""

/-- ErrorCode (src/errors.go lines 178-186): walk the chain outermost-first
and return the first non-empty result of the Code method of a value
implementing ClientFacing; only the library node implements it in that
revision, and its Code method (src/errors.go lines 53-66) returns the own
code field when non-empty and otherwise scans the wrapped chain. -/
def ErrorCode : GoError → String
  | .nilE => ""
  | .node _ c _ _ e =>
      let cd := if c = "" then codeFold e else c
      if cd = "" then ErrorCode e else cd
  | .fmtWrap _ e => ErrorCode e
  | .leaf _ => ""

/-- The for-loop inside Error.Message (src/errors.go lines 81-85): walk the
wrapped chain and return the message of the first library node whose
message field is non-empty. -/
def msgFold : GoError → String
  | .nilE => ""
  | .node _ _ m _ e => if m = "" then msgFold e else m
  | .fmtWrap _ e => msgFold e
  | .leaf _ => ""

/-- ErrorMessage (src/errors.go lines 190-198): walk the chain
outermost-first and return the first non-empty result of the Message method
(src/errors.go lines 76-88), which returns the own message field when
non-empty and otherwise scans the wrapped chain. -/
def ErrorMessage : GoError → String
  | .nilE => ""
  | .node _ _ m _ e =>
      let md := if m = "" then msgFold e else m
      if md = "" then ErrorMessage e else md
  | .fmtWrap _ e => ErrorMessage e
  | .leaf _ => ""

/-- SetCode (src/errors.go lines 69-74 and errorImpl.SetCode in
src/unnamed/part_006 lines 193-196): set the code field of the receiver
node and return it; a nil receiver is returned unchanged.  The last two
cases are unreachable, since only the library node has this method. -/
def SetCode (code : String) : GoError → GoError
  | .nilE => .nilE
  | .node op _ m st e => .node op code m st e
  | .fmtWrap p e => .fmtWrap p e
  | .leaf t => .leaf t

/-- The for-loop inside ClearMessage (src/errors.go lines 106-110): walk
the wrapped chain by errors.Unwrap and blank the message field of every
library node found. -/
def clearMsgFold : GoError → GoError
  | .nilE => .nilE
  | .node op c _ st e => .node op c "" st (clearMsgFold e)
  | .fmtWrap p e => .fmtWrap p (clearMsgFold e)
  | .leaf t => .leaf t

/-- ClearMessage (src/errors.go lines 101-112): on a nil receiver return
nil; otherwise blank the message of the receiver and of every library node
reachable by unwrapping from it, and return the receiver.  The last two
cases are unreachable, since only the library node has this method. -/
def ClearMessage : GoError → GoError
  | .nilE => .nilE
  | .node op c _ st e => .node op c "" st (clearMsgFold e)
  | .fmtWrap p e => .fmtWrap p e
  | .leaf t => .leaf t

/-- New (src/errors.go lines 126-132): a fresh node with the given op and
code, empty message, wrapping errors.New of the cause text. -/
def New (op code cause : String) : GoError :=
  .node op code "" "" (.leaf cause)

/-- Wrap (src/errors.go lines 158-167): when optionalInfo is supplied its
first element is spliced in by fmt.Errorf as an annotation wrapper around
err; the returned node has the given op, empty code and message, and the
(possibly annotated) err as its cause.  There is no nil test on err in
this revision. -/
def Wrap (op : String) (err : GoError) (optionalInfo : List String) : GoError :=
  let innerErr := match optionalInfo with
    | [] => err
    | info :: _ => .fmtWrap ("(" ++ info ++ "): ") err
  .node op "" "" "" innerErr

/-- ErrorCode from src/interfaces.go lines 27-35, resolved against
errorImpl of src/unnamed/part_006 whose ClientCode method returns its own
code field: walk the chain outermost-first and return the first non-empty
code field of a library node. -/
def ErrorCodeIfc : GoError → String
  | .nilE => ""
  | .node _ c _ _ e => if c = "" then ErrorCodeIfc e else c
  | .fmtWrap _ e => ErrorCodeIfc e
  | .leaf _ => ""

/-- The for-loop of ErrorStacktrace (src/interfaces.go lines 59-68) with
its running accumulator: each library node with a non-empty stacktrace
field overwrites the accumulator, so the last (innermost) one wins. -/
def stacktraceLoop (stack : String) : GoError → String
  | .nilE => stack
  | .node _ _ _ st e => stacktraceLoop (if st = "" then stack else st) e
  | .fmtWrap _ e => stacktraceLoop stack e
  | .leaf _ => stack

/-- ErrorStacktrace (src/interfaces.go lines 59-68): run the accumulator
loop starting from the empty string. -/
def ErrorStacktrace (e : GoError) : String :=
  stacktraceLoop "" e

/-- Wrap from src/unnamed/part_006 lines 95-116.  The two runtime inputs
are passed as parameters: callerOp stands for the value of
getCallingFunc 2 at the call site, and freshStack for the value of
debug.Stack() there.  A nil err returns nil; otherwise the first
optionalInfo element is spliced in as a fmt.Errorf annotation, and the
node stacktrace is ErrorStacktrace of the wrapped err, or the fresh
capture when that is empty. -/
def WrapAuto (callerOp freshStack : String) (err : GoError)
    (optionalInfo : List String) : GoError :=
  match err with
  | .nilE => .nilE
  | e =>
      let innerErr := match optionalInfo with
        | [] => e
        | info :: _ => GoError.fmtWrap ("(" ++ info ++ "): ") e
      let st := ErrorStacktrace e
      .node callerOp "" "" (if st = "" then freshStack else st) innerErr

/-- The stacktrace field of a library node; empty for every other value. -/
def stacktraceOf : GoError → String
  | .node _ _ _ st _ => st
  | _ => ""

/-- strings.Split with a one-character separator, on the character list of
the string: splits around every occurrence of the separator.  The result
is always non-empty. -/
def splitOnChar (c : Char) : List Char → List (List Char)
  | [] => [[]]
  | x :: xs =>
      let r := splitOnChar c xs
      if x = c then [] :: r
      else
        match r with
        | [] => [[x]]
        | y :: ys => (x :: y) :: ys

/-- getCallingFunc (src/unnamed/part_006 lines 209-224).  The ambient call
stack at the moment runtime.Callers executes is passed as a list of fully
qualified function names, position 0 being runtime.Callers itself and
position 1 its caller getCallingFunc; runtime.Callers(1+frameOffset, pc)
then reports the name at position (1+frameOffset), a negative skip
behaving as 0 (Int.toNat) and a position past the depth reporting nothing.
When nothing is reported the result is "unknown"; otherwise the name is
stripped of the path components before its last slash (strings.Split on
slash, last element), and the part after the first dot is returned
(strings.SplitAfterN on dot with limit 2, element 1).  The result none
models the index-out-of-range panic when the name contains no dot. -/
def getCallingFunc (stack : List String) (frameOffset : Int) : Option String :=
  match stack.get? (1 + frameOffset).toNat with
  | none => some "unknown"
  | some fn =>
      let funcname := (splitOnChar '/' fn.data).getLastD []
      match splitOnChar '.' funcname with
      | _ :: r :: rest => some (String.mk (List.intercalate ['.'] (r :: rest)))
      | _ => none

/-- Spec-side resolver: the code of the first node encountered
outermost-first whose own code field is non-empty, or the empty string. -/
def specOutermostCode : GoError → String
  | .nilE => ""
  | .node _ c _ _ e => if c = "" then specOutermostCode e else c
  | .fmtWrap _ e => specOutermostCode e
  | .leaf _ => ""

/-- Spec-side resolver: the stacktrace of the innermost (closest-to-root)
node whose stacktrace field is non-empty, or the empty string. -/
def specInnermostStacktrace : GoError → String
  | .nilE => ""
  | .node _ _ _ st e =>
      let inner := specInnermostStacktrace e
      if inner = "" then st else inner
  | .fmtWrap _ e => specInnermostStacktrace e
  | .leaf _ => ""

/-- Spec-side: blank the message facet of every node of a chain, leaving
all other facets and the shape untouched. -/
def eraseMessages : GoError → GoError
  | .nilE => .nilE
  | .node op c _ st e => .node op c "" st (eraseMessages e)
  | .fmtWrap p e => .fmtWrap p (eraseMessages e)
  | .leaf t => .leaf t

/-! Helper lemmas. -/

/-- The loop inside Error.Code computes the spec-side outermost code of the
wrapped chain. -/
theorem codeFold_eq_spec (e : GoError) : codeFold e = specOutermostCode e := by
  induction e with
  | nilE => rfl
  | node op c m st e ih => simp [codeFold, specOutermostCode, ih]
  | fmtWrap p e ih => simpa [codeFold, specOutermostCode] using ih
  | leaf t => rfl

/-- ErrorCode of the errors.go revision computes the spec-side outermost
code. -/
theorem errorCode_eq_spec (e : GoError) : ErrorCode e = specOutermostCode e := by
  induction e with
  | nilE => rfl
  | node op c m st e ih =>
      by_cases hc : c = "" <;>
        simp [ErrorCode, specOutermostCode, hc, codeFold_eq_spec, ih]
  | fmtWrap p e ih => simpa [ErrorCode, specOutermostCode] using ih
  | leaf t => rfl

/-- ErrorCode of the interfaces.go revision computes the spec-side
outermost code. -/
theorem errorCodeIfc_eq_spec (e : GoError) : ErrorCodeIfc e = specOutermostCode e := by
  induction e with
  | nilE => rfl
  | node op c m st e ih => simp [ErrorCodeIfc, specOutermostCode, ih]
  | fmtWrap p e ih => simpa [ErrorCodeIfc, specOutermostCode] using ih
  | leaf t => rfl

/-- After the cascading clear, the message scan of the wrapped chain finds
nothing. -/
theorem msgFold_clearMsgFold (e : GoError) : msgFold (clearMsgFold e) = "" := by
  induction e with
  | nilE => rfl
  | node op c m st e ih => simp [clearMsgFold, msgFold, ih]
  | fmtWrap p e ih => simpa [clearMsgFold, msgFold] using ih
  | leaf t => rfl

/-- After the cascading clear, ErrorMessage of the cleared chain is
empty. -/
theorem errorMessage_clearMsgFold (e : GoError) : ErrorMessage (clearMsgFold e) = "" := by
  induction e with
  | nilE => rfl
  | node op c m st e ih =>
      simp [clearMsgFold, ErrorMessage, msgFold_clearMsgFold, ih]
  | fmtWrap p e ih => simpa [clearMsgFold, ErrorMessage] using ih
  | leaf t => rfl

/-- The accumulator loop of ErrorStacktrace returns the spec-side innermost
stacktrace when one exists, and the accumulator otherwise. -/
theorem stacktraceLoop_eq (e : GoError) :
    ∀ acc, stacktraceLoop acc e =
      if specInnermostStacktrace e = "" then acc else specInnermostStacktrace e := by
  induction e with
  | nilE => intro acc; rfl
  | node op c m st e ih =>
      intro acc
      by_cases h : specInnermostStacktrace e = "" <;> by_cases h2 : st = "" <;>
        simp [stacktraceLoop, specInnermostStacktrace, h, h2, ih]
  | fmtWrap p e ih =>
      intro acc
      simpa [stacktraceLoop, specInnermostStacktrace] using ih acc
  | leaf t => intro acc; rfl

/-- ErrorStacktrace computes the spec-side innermost stacktrace. -/
theorem errorStacktrace_eq_spec (e : GoError) :
    ErrorStacktrace e = specInnermostStacktrace e := by
  unfold ErrorStacktrace
  rw [stacktraceLoop_eq]
  by_cases h : specInnermostStacktrace e = "" <;> simp [h]

/-- Rendering is unchanged by blanking every message facet. -/
theorem errorStr_eraseMessages (e : GoError) :
    errorStr (eraseMessages e) = errorStr e := by
  induction e with
  | nilE => rfl
  | node op c m st e ih => cases e <;> simp_all [eraseMessages, errorStr]
  | fmtWrap p e ih => cases e <;> simp_all [eraseMessages, errorStr]
  | leaf t => rfl

/-! Claim theorems. -/

/-- Claim C1: for every error chain, ErrorCode (both the src/errors.go and
the src/interfaces.go revision) returns the code of the first node
encountered when walking from the outermost node inward whose code is
non-empty, and the empty string when no node in the chain has a non-empty
code. -/
theorem claim_errorCode_outermost_nonempty_code (e : GoError) :
    ErrorCode e = specOutermostCode e ∧ ErrorCodeIfc e = specOutermostCode e :=
  ⟨errorCode_eq_spec e, errorCodeIfc_eq_spec e⟩

/-- Claim C2: after ClearMessage on any node, ErrorMessage of that chain is
the empty string, even when a deeper node had a non-empty message before
the clear. -/
theorem claim_clearMessage_silences_errorMessage
    (op c m st : String) (e : GoError) :
    ErrorMessage (ClearMessage (GoError.node op c m st e)) = "" := by
  simp [ClearMessage, ErrorMessage, msgFold_clearMsgFold,
    errorMessage_clearMsgFold]

/-- Claim C3 counterexample: Wrap of the src/errors.go revision, applied to
a nil error with empty optionalInfo, returns a constructed node rather
than nil. -/
theorem claim_wrap_nil_counterexample :
    Wrap "Foo" GoError.nilE [] ≠ GoError.nilE := by decide

/-- Claim C3 amended: Wrap of the src/unnamed/part_006 revision returns nil
when the wrapped error is nil, for every captured operation name, every
fresh stack capture and every optionalInfo list. -/
theorem claim_wrapAuto_nil_is_nil (callerOp freshStack : String)
    (optionalInfo : List String) :
    WrapAuto callerOp freshStack GoError.nilE optionalInfo = GoError.nilE := rfl

/-- Claim C4: ErrorStacktrace returns the stacktrace of the innermost node
with a non-empty stacktrace, and the empty string when no node carries
one. -/
theorem claim_errorStacktrace_innermost (e : GoError) :
    ErrorStacktrace e = specInnermostStacktrace e :=
  errorStacktrace_eq_spec e

/-- Claim C5: the textual rendering of the two scenario chains: New with
op Foo, code database_error and cause cannot foo renders with the op
prefix, the bracketed code and the leaf text; wrapping it with op Fizz and
optionalInfo failed to fizz interposes the parenthesised annotation. -/
theorem claim_render_scenarios :
    errorStr (New "Foo" "database_error" "cannot foo") =
      some "Foo: [database_error] cannot foo" ∧
    errorStr (Wrap "Fizz" (New "Foo" "database_error" "cannot foo")
        ["failed to fizz"]) =
      some "Fizz: (failed to fizz): Foo: [database_error] cannot foo" :=
  ⟨rfl, rfl⟩

/-- Claim C6: the node built by Wrap of src/unnamed/part_006 carries the
wrapped chains innermost stacktrace when one is resolvable, and the fresh
capture from the wrap site otherwise. -/
theorem claim_wrapAuto_stacktrace_first_capture_wins
    (callerOp freshStack : String) (e : GoError) (optionalInfo : List String)
    (h : e ≠ GoError.nilE) :
    stacktraceOf (WrapAuto callerOp freshStack e optionalInfo) =
      if specInnermostStacktrace e = "" then freshStack
      else specInnermostStacktrace e := by
  cases e with
  | nilE => exact absurd rfl h
  | node op c m st ce =>
      simp [WrapAuto, stacktraceOf, errorStacktrace_eq_spec]
  | fmtWrap p ce =>
      simp [WrapAuto, stacktraceOf, errorStacktrace_eq_spec]
  | leaf t =>
      simp [WrapAuto, stacktraceOf, errorStacktrace_eq_spec]

/-- Witness for claim C6 at a chain whose inner node already carries a
stacktrace. -/
theorem claim_wrapAuto_stacktrace_witness :
    (GoError.node "Foo" "" "" "TRACE" (GoError.leaf "x") ≠ GoError.nilE) ∧
    stacktraceOf (WrapAuto "Outer" "FRESH"
        (GoError.node "Foo" "" "" "TRACE" (GoError.leaf "x")) []) =
      (if specInnermostStacktrace
          (GoError.node "Foo" "" "" "TRACE" (GoError.leaf "x")) = ""
        then "FRESH"
        else specInnermostStacktrace
          (GoError.node "Foo" "" "" "TRACE" (GoError.leaf "x"))) :=
  ⟨by decide,
   claim_wrapAuto_stacktrace_first_capture_wins "Outer" "FRESH"
     (GoError.node "Foo" "" "" "TRACE" (GoError.leaf "x")) [] (by decide)⟩

/-- Claim C7: the rendered string is independent of the message facet:
two chains that agree after blanking every message render identically. -/
theorem claim_render_message_independent (a b : GoError)
    (h : eraseMessages a = eraseMessages b) :
    errorStr a = errorStr b := by
  rw [← errorStr_eraseMessages a, h, errorStr_eraseMessages b]

/-- Witness for claim C7 at two chains differing only in their message
facets. -/
theorem claim_render_message_independent_witness :
    (eraseMessages (GoError.node "Foo" "c" "secret one" "" (GoError.leaf "x")) =
      eraseMessages (GoError.node "Foo" "c" "secret two" "" (GoError.leaf "x"))) ∧
    errorStr (GoError.node "Foo" "c" "secret one" "" (GoError.leaf "x")) =
      errorStr (GoError.node "Foo" "c" "secret two" "" (GoError.leaf "x")) :=
  ⟨by decide,
   claim_render_message_independent
     (GoError.node "Foo" "c" "secret one" "" (GoError.leaf "x"))
     (GoError.node "Foo" "c" "secret two" "" (GoError.leaf "x")) (by decide)⟩

/-- Claim C8: SetCode on a node replaces only the code field, leaving op,
message, stacktrace and the whole wrapped chain untouched, and returns the
node; SetCode on a nil receiver returns nil. -/
theorem claim_setCode_frame (code op old m st : String) (e : GoError) :
    SetCode code (GoError.node op old m st e) = GoError.node op code m st e ∧
    SetCode code GoError.nilE = GoError.nilE :=
  ⟨rfl, rfl⟩

/-- Claim C9: when the call stack places runtime.Callers at position 0 and
getCallingFunc at position 1, a negative frame offset resolves to the name
of the stack-introspection primitive Callers, a non-negative offset past
the available depth resolves to unknown, and offset 0 resolves to the
functions own name. -/
theorem claim_getCallingFunc_offsets (stack : List String) (off : Int)
    (h0 : stack.get? 0 = some "runtime.Callers")
    (h1 : stack.get? 1 = some "github.com/kisunji/e.getCallingFunc") :
    (off < 0 → getCallingFunc stack off = some "Callers") ∧
    (0 ≤ off → (stack.length : Int) ≤ 1 + off →
      getCallingFunc stack off = some "unknown") ∧
    (off = 0 → getCallingFunc stack off = some "getCallingFunc") := by
  refine ⟨fun hneg => ?_, fun hpos hdeep => ?_, fun hz => ?_⟩
  · have ht : (1 + off).toNat = 0 := by omega
    unfold getCallingFunc
    rw [ht, h0]
    decide
  · have ht : stack.length ≤ (1 + off).toNat := by omega
    unfold getCallingFunc
    rw [List.get?_eq_none.mpr ht]
  · subst hz
    have ht : ((1 : Int) + 0).toNat = 1 := rfl
    unfold getCallingFunc
    rw [ht, h1]
    decide

/-- Witness for claim C9 at a concrete three-frame call stack, at offsets
-1000, 9999 and 0. -/
theorem claim_getCallingFunc_offsets_witness :
    getCallingFunc ["runtime.Callers", "github.com/kisunji/e.getCallingFunc",
      "github.com/kisunji/e.Wrap"] (-1000) = some "Callers" ∧
    getCallingFunc ["runtime.Callers", "github.com/kisunji/e.getCallingFunc",
      "github.com/kisunji/e.Wrap"] 9999 = some "unknown" ∧
    getCallingFunc ["runtime.Callers", "github.com/kisunji/e.getCallingFunc",
      "github.com/kisunji/e.Wrap"] 0 = some "getCallingFunc" :=
  ⟨(claim_getCallingFunc_offsets _ (-1000) (by decide) (by decide)).1
      (by decide),
   (claim_getCallingFunc_offsets _ 9999 (by decide) (by decide)).2.1
      (by decide) (by decide),
   (claim_getCallingFunc_offsets _ 0 (by decide) (by decide)).2.2 rfl⟩

/-- Claim C10: on the nil receiver the Error method returns the empty
string without panicking (the some constructor marks a non-panicking
run) and Unwrap returns nil. -/
theorem claim_nil_receiver_total :
    errorStr GoError.nilE = some "" ∧ unwrap GoError.nilE = GoError.nilE :=
  ⟨rfl, rfl⟩
